import Mathlib

/-!
Weather-station sketch (mainESP32.code.cpp): debounce, scheduler, LEDs.

A shallow embedding of the sketch.  The globals of the sketch form an explicit
`State`; everything the sketch reads from the board or from a library during
one pass of `loop()` (button level, `millis()` readings, broker session,
random draws, sensor reads) is an explicit `Env`.  `unsigned long` values are
naturals below `2 ^ 32` and their subtraction wraps.

A `float` or `double` value is the rational it denotes, and a sensor read that
is not-a-number is `none`.  Every arithmetic step and every store into a
`float` rounds to the nearest value with 53 (`double`) or 24 (`float`)
significand bits, ties to even (`roundBinary`).  The exponent range is not
bounded: the rounding is that of IEEE 754 as long as no value overflows or is
subnormal, which holds for all temperatures a station measures.
-/

namespace MainESP32

/-! ## Constants -/

/-- Arduino level `HIGH`, which is also `true` when stored in a `bool`. -/
def HIGH : Bool := true

/-- Arduino level `LOW`. -/
def LOW : Bool := false

/-- Line 27: `#define PUBLISH_INTERVAL 5000`. -/
def PUBLISH_INTERVAL : Nat := 5000

/-- Line 38: `unsigned long debounceDelay = 50;` (never assigned afterwards). -/
def debounceDelay : Nat := 50

/-- Number of values of the 32-bit `unsigned long` of the target. -/
def ULONG_SIZE : Nat := 2 ^ 32

/-- Subtraction of two `unsigned long` values (both below `ULONG_SIZE`), wrapping. -/
def usub (a b : Nat) : Nat := (a + ULONG_SIZE - b) % ULONG_SIZE

/-! ## Data model -/

/-- Lines written to the serial port, one constructor per `Serial.print` site. -/
inductive SerialMsg where
  | banner
  | wifiConnecting
  | dot
  | wifiFailed
  | wifiConnected
  | mqttConnecting
  | mqttConnected
  | mqttFailed
  | dhtError
  | publishedTelemetry
deriving DecidableEq, Repr

/-- One call of `client.publish`: the telemetry payload with its four fields, or
a retained status payload. -/
inductive Message where
  | telemetry (temperature humidity battery : ℚ) (timestamp : Nat)
  | status (text : String)
deriving DecidableEq, Repr

/-- Globals of the sketch (lines 35-40), the two LED lines, and the logs of the
calls made to `client.publish`, `delay` and `Serial`. -/
structure State where
  modeCelsius : Bool
  lastButtonState : Bool
  lastDebounceTime : Nat
  lastPublish : Nat
  ledC : Bool
  ledF : Bool
  published : List Message
  delays : List Nat
  serial : List SerialMsg
  subscribed : Bool
deriving DecidableEq, Repr

/-- Everything one pass of `loop()` obtains from outside the sketch. -/
structure Env where
  /-- Line 154: `digitalRead(BUTTON)`. -/
  reading : Bool
  /-- Line 155: `millis()`, read when the level changed. -/
  tDebounce : Nat
  /-- Line 157: `millis()`. -/
  tButton : Nat
  /-- Line 75: `client.connected()`. -/
  connected : Bool
  /-- Line 140: how many `client.connect` calls fail before one succeeds. -/
  connectFailures : Nat
  /-- Line 78: `millis()` in the interval check. -/
  tCheck : Nat
  /-- Line 79: `millis()` stored in `lastPublish`. -/
  tStore : Nat
  /-- Line 83: `millis()` used as the payload timestamp. -/
  tStamp : Nat
  /-- Line 86: the value of `random(200, 350)`. -/
  drawTemp : Int
  /-- Line 87: the value of `random(40, 80)`. -/
  drawHum : Int
  /-- Line 89: `dht.readTemperature()`, `none` for not-a-number. -/
  dhtTemp : Option ℚ
  /-- Line 90: `dht.readHumidity()`, `none` for not-a-number. -/
  dhtHum : Option ℚ

/-- Globals as initialised at lines 35-40, LED lines not yet driven. -/
def initialState : State :=
  { modeCelsius := true
    lastButtonState := HIGH
    lastDebounceTime := 0
    lastPublish := 0
    ledC := LOW
    ledF := LOW
    published := []
    delays := []
    serial := []
    subscribed := false }

/-! ## Functions of the sketch -/

/-- Lines 164-167. -/
def updateLEDs (s : State) : State :=
  { s with
    ledC := if s.modeCelsius then HIGH else LOW
    ledF := if s.modeCelsius then LOW else HIGH }

/-- Lines 153-162.  `t1` is the `millis()` of line 155, `t2` that of line 157. -/
def handleButton (reading : Bool) (t1 t2 : Nat) (s : State) : State :=
  let s1 := if reading != s.lastButtonState then { s with lastDebounceTime := t1 } else s
  let s2 :=
    if usub t2 s1.lastDebounceTime > debounceDelay then
      if reading == LOW then { s1 with modeCelsius := !s1.modeCelsius } else s1
    else s1
  { s2 with lastButtonState := reading }

/-- Lines 169-174. -/
def publishStatus (status : String) (s : State) : State :=
  { s with published := s.published ++ [Message.status status] }

/-- Lines 122-130: the `while` loop of `connectWiFi`.  `status k` tells whether
the `k`-th call of `WiFi.status()` (counted from 0) returns `WL_CONNECTED`; the
loop polls once per round, so the poll index is `essais`. -/
def connectWiFiLoop (status : Nat → Bool) (essais : Nat) (s : State) : State :=
  if status essais then
    { s with serial := s.serial ++ [SerialMsg.wifiConnected] }
  else
    let s1 := { s with delays := s.delays ++ [500], serial := s.serial ++ [SerialMsg.dot] }
    let essais1 := essais + 1
    if essais1 > 20 then
      { s1 with serial := s1.serial ++ [SerialMsg.wifiFailed] }
    else
      connectWiFiLoop status essais1 s1
termination_by 21 - essais
decreasing_by omega

/-- Lines 117-135. -/
def connectWiFi (status : Nat → Bool) (s : State) : State :=
  connectWiFiLoop status 0 { s with serial := s.serial ++ [SerialMsg.wifiConnecting] }

/-- Lines 137-151, for a broker that refuses `failures` connection attempts and
accepts the next one. -/
def reconnectMQTT : Nat → State → State
  | 0, s =>
    { s with
      serial := s.serial ++ [SerialMsg.mqttConnecting, SerialMsg.mqttConnected]
      subscribed := true }
  | failures + 1, s =>
    reconnectMQTT failures
      { s with
        serial := s.serial ++ [SerialMsg.mqttConnecting, SerialMsg.mqttFailed]
        delays := s.delays ++ [2000] }

/-- Lines 50-69. -/
def setup (simulation : Bool) (wifiStatus : Nat → Bool) : State :=
  let s0 := { initialState with delays := [1000], serial := [SerialMsg.banner] }
  let s1 := { s0 with ledC := HIGH, ledF := LOW }
  let _ := simulation
  let s2 := connectWiFi wifiStatus s1
  publishStatus "online" s2

/-- Line 78: `millis() - lastPublish > PUBLISH_INTERVAL`. -/
def intervalElapsed (now lastPublish : Nat) : Bool :=
  decide (usub now lastPublish > PUBLISH_INTERVAL)

/-- Nearest integer to `y`, a tie going to the even neighbour. -/
def roundHalfEven (y : ℚ) : ℤ :=
  if y - ⌊y⌋ < 1 / 2 then ⌊y⌋
  else if 1 / 2 < y - ⌊y⌋ then ⌊y⌋ + 1
  else if ⌊y⌋ % 2 = 0 then ⌊y⌋ else ⌊y⌋ + 1

/-- Nearest binary floating-point value with `p` significand bits, ties to even:
for `2 ^ e ≤ |x| < 2 ^ (e + 1)` the values are spaced `2 ^ (e - (p - 1))` apart. -/
def roundBinary (p : ℕ) (x : ℚ) : ℚ :=
  if x = 0 then 0
  else
    let ulp : ℚ := 2 ^ (Int.log 2 |x| - ((p : ℤ) - 1))
    roundHalfEven (x / ulp) * ulp

/-- Result of a `double` operation whose exact value is `x`. -/
def toDouble (x : ℚ) : ℚ := roundBinary 53 x

/-- Conversion to `float`, as in a store of `x` into a `float` variable. -/
def toFloat (x : ℚ) : ℚ := roundBinary 24 x

/-- Line 82: `float battery = 3.9;`, the `double` literal stored in a `float`. -/
def battery : ℚ := toFloat (toDouble (39 / 10))

/-- Lines 85-95: the temperature and humidity of this cycle, `none` when the
real sensor gives not-a-number for either (the `return` of line 93).  Line 86
divides in `double` and stores in the `float temp`; line 87 stores the integer
draw in the `float hum`. -/
def measure (simulation : Bool) (e : Env) : Option (ℚ × ℚ) :=
  if simulation then
    some (toFloat (toDouble ((e.drawTemp : ℚ) / 10)), toFloat (e.drawHum : ℚ))
  else
    match e.dhtTemp, e.dhtHum with
    | some temp, some hum => some (temp, hum)
    | _, _ => none

/-- Line 97: `if (!modeCelsius) temp = temp * 9.0 / 5.0 + 32.0;`, with `temp` a
`float`: the product, the quotient and the sum are `double` operations and the
result is stored back in the `float`. -/
def toDisplayUnit (modeCelsius : Bool) (temp : ℚ) : ℚ :=
  if !modeCelsius then toFloat (toDouble (toDouble (toDouble (temp * 9) / 5) + 32)) else temp

/-- Lines 72-114: one pass of `loop()`. -/
def loop (simulation : Bool) (e : Env) (s : State) : State :=
  let s1 := handleButton e.reading e.tDebounce e.tButton s
  let s2 := if !e.connected then reconnectMQTT e.connectFailures s1 else s1
  if intervalElapsed e.tCheck s2.lastPublish then
    let s3 := { s2 with lastPublish := e.tStore }
    match measure simulation e with
    | none => { s3 with serial := s3.serial ++ [SerialMsg.dhtError] }
    | some (temp, hum) =>
      let temp1 := toDisplayUnit s3.modeCelsius temp
      let payload := Message.telemetry temp1 hum battery e.tStamp
      updateLEDs
        { s3 with
          published := s3.published ++ [payload]
          serial := s3.serial ++ [SerialMsg.publishedTelemetry] }
  else
    updateLEDs s2

/-! ## Runs -/

/-- Successive passes of `loop()`, one per element of the list. -/
def runLoop (simulation : Bool) : List Env → State → State
  | [], s => s
  | e :: es, s => runLoop simulation es (loop simulation e s)

/-- Successive calls of `handleButton`, each given its level and one clock
reading used for both `millis()` calls. -/
def pollButton : List (Bool × Nat) → State → State
  | [], s => s
  | (r, t) :: rest, s => pollButton rest (handleButton r t t s)

/-- Whether a call of `handleButton` changes `modeCelsius`. -/
def toggled (reading : Bool) (now : Nat) (s : State) : Bool :=
  (handleButton reading now now s).modeCelsius != s.modeCelsius

/-- Number of calls in a run of `handleButton` calls that change `modeCelsius`. -/
def countToggles : List (Bool × Nat) → State → Nat
  | [], _ => 0
  | (r, t) :: rest, s =>
    (if toggled r t s then 1 else 0) + countToggles rest (handleButton r t t s)

/-- The first `n` samples of a button held `LOW`, polled every `step` ms from `t0`. -/
def heldLow (t0 step n : Nat) : List (Bool × Nat) :=
  (List.range n).map fun k => (LOW, t0 + step * k)

/-- Clock readings of a run of `loop()` passes that never decrease and never
reach the wrap of the counter: `t` is the latest earlier reading. -/
def clockMonotone : Nat → List Env → Prop
  | _, [] => True
  | t, e :: es =>
    t ≤ e.tCheck ∧ e.tCheck ≤ e.tStore ∧ e.tStore < ULONG_SIZE ∧ clockMonotone e.tStore es

/-! ## Auxiliary definitions and concrete inputs -/

/-- State of `loop()` when it reaches the interval check of line 78. -/
def beforeCheck (e : Env) (s : State) : State :=
  let s1 := handleButton e.reading e.tDebounce e.tButton s
  if !e.connected then reconnectMQTT e.connectFailures s1 else s1

/-- The clock condition of a run can be checked by evaluation. -/
instance clockMonotoneDecidable : (t : Nat) → (envs : List Env) →
    Decidable (clockMonotone t envs)
  | _, [] => isTrue trivial
  | t, e :: es =>
    have := clockMonotoneDecidable e.tStore es
    inferInstanceAs
      (Decidable (t ≤ e.tCheck ∧ e.tCheck ≤ e.tStore ∧ e.tStore < ULONG_SIZE ∧
        clockMonotone e.tStore es))

/-- A pass of a simulated station in which every `millis()` reading is `t`. -/
def envAt (t : Nat) : Env :=
  { reading := HIGH, tDebounce := t, tButton := t, connected := true
    connectFailures := 0, tCheck := t, tStore := t, tStamp := t
    drawTemp := 250, drawHum := 60, dhtTemp := none, dhtHum := none }

/-- A pass of a real-sensor station at 6000 ms with reads 25.0 and 50.0, button released. -/
def envReal25 : Env :=
  { reading := HIGH, tDebounce := 6000, tButton := 6000, connected := true
    connectFailures := 0, tCheck := 6000, tStore := 6000, tStamp := 6000
    drawTemp := 0, drawHum := 0, dhtTemp := some 25, dhtHum := some 50 }

/-- A pass of a simulated station with the largest draws `random` returns. -/
def envSimulated : Env :=
  { reading := HIGH, tDebounce := 6000, tButton := 6000, connected := true
    connectFailures := 0, tCheck := 6000, tStore := 6000, tStamp := 6000
    drawTemp := 349, drawHum := 79, dhtTemp := none, dhtHum := none }

/-- A pass of a real-sensor station at 6000 ms whose temperature read fails. -/
def envSensorFault : Env :=
  { reading := HIGH, tDebounce := 6000, tButton := 6000, connected := true
    connectFailures := 0, tCheck := 6000, tStore := 6001, tStamp := 6002
    drawTemp := 0, drawHum := 0, dhtTemp := none, dhtHum := some 50 }

/-- First pass of the failing run: the button is pressed at 100 ms. -/
def envPress : Env :=
  { reading := LOW, tDebounce := 100, tButton := 100, connected := true
    connectFailures := 0, tCheck := 100, tStore := 100, tStamp := 100
    drawTemp := 0, drawHum := 0, dhtTemp := some 21, dhtHum := some 50 }

/-- Second pass of the failing run: the button is still held at 6000 ms and the
temperature read is not-a-number. -/
def envHeldFault : Env :=
  { reading := LOW, tDebounce := 6000, tButton := 6000, connected := true
    connectFailures := 0, tCheck := 6000, tStore := 6000, tStamp := 6000
    drawTemp := 0, drawHum := 0, dhtTemp := none, dhtHum := some 50 }

/-- The initial globals with the mode Fahrenheit and the LED lines as `updateLEDs`
drives them for that mode. -/
def fahrenheitState : State :=
  { initialState with modeCelsius := false, ledC := LOW, ledF := HIGH }

/-- Button released at 0 ms, pressed from 100 ms to 170 ms (polled at 100, 160
and 170 ms), released again at 180 ms. -/
def onePress : List (Bool × Nat) :=
  [(HIGH, 0), (LOW, 100), (LOW, 160), (LOW, 170), (HIGH, 180)]

/-! ## Basic facts -/

theorem usub_self (a : Nat) : usub a a = 0 := by
  unfold usub ULONG_SIZE
  omega

theorem usub_of_le {a b : Nat} (hba : b ≤ a) (ha : a < ULONG_SIZE) : usub a b = a - b := by
  unfold usub
  unfold ULONG_SIZE at *
  omega

theorem handleButton_lastPublish (r : Bool) (t1 t2 : Nat) (s : State) :
    (handleButton r t1 t2 s).lastPublish = s.lastPublish := by
  unfold handleButton
  dsimp only
  split_ifs <;> rfl

theorem handleButton_published (r : Bool) (t1 t2 : Nat) (s : State) :
    (handleButton r t1 t2 s).published = s.published := by
  unfold handleButton
  dsimp only
  split_ifs <;> rfl

theorem reconnectMQTT_lastPublish (n : Nat) (s : State) :
    (reconnectMQTT n s).lastPublish = s.lastPublish := by
  induction n generalizing s with
  | zero => rfl
  | succ n ih => simp [reconnectMQTT, ih]

theorem reconnectMQTT_published (n : Nat) (s : State) :
    (reconnectMQTT n s).published = s.published := by
  induction n generalizing s with
  | zero => rfl
  | succ n ih => simp [reconnectMQTT, ih]

theorem reconnectMQTT_modeCelsius (n : Nat) (s : State) :
    (reconnectMQTT n s).modeCelsius = s.modeCelsius := by
  induction n generalizing s with
  | zero => rfl
  | succ n ih => simp [reconnectMQTT, ih]

theorem reconnectMQTT_leds (n : Nat) (s : State) :
    (reconnectMQTT n s).ledC = s.ledC ∧ (reconnectMQTT n s).ledF = s.ledF := by
  induction n generalizing s with
  | zero => exact ⟨rfl, rfl⟩
  | succ n ih => simp [reconnectMQTT, ih]

theorem beforeCheck_lastPublish (e : Env) (s : State) :
    (beforeCheck e s).lastPublish = s.lastPublish := by
  unfold beforeCheck
  split_ifs <;> simp [reconnectMQTT_lastPublish, handleButton_lastPublish]

theorem beforeCheck_published (e : Env) (s : State) :
    (beforeCheck e s).published = s.published := by
  unfold beforeCheck
  split_ifs <;> simp [reconnectMQTT_published, handleButton_published]

theorem beforeCheck_modeCelsius (e : Env) (s : State) :
    (beforeCheck e s).modeCelsius
      = (handleButton e.reading e.tDebounce e.tButton s).modeCelsius := by
  unfold beforeCheck
  split_ifs <;> simp [reconnectMQTT_modeCelsius]

theorem loop_eq (simulation : Bool) (e : Env) (s : State) :
    loop simulation e s =
      if intervalElapsed e.tCheck s.lastPublish then
        match measure simulation e with
        | none =>
          { beforeCheck e s with
            lastPublish := e.tStore
            serial := (beforeCheck e s).serial ++ [SerialMsg.dhtError] }
        | some (temp, hum) =>
          updateLEDs
            { beforeCheck e s with
              lastPublish := e.tStore
              published := (beforeCheck e s).published ++
                [Message.telemetry (toDisplayUnit (beforeCheck e s).modeCelsius temp) hum
                  battery e.tStamp]
              serial := (beforeCheck e s).serial ++ [SerialMsg.publishedTelemetry] }
      else updateLEDs (beforeCheck e s) := by
  have h := beforeCheck_lastPublish e s
  unfold beforeCheck at h
  unfold loop beforeCheck
  simp only [h]

theorem connectWiFiLoop_frame (status : Nat → Bool) :
    ∀ (n essais : Nat) (s : State), 21 - essais = n →
      (connectWiFiLoop status essais s).modeCelsius = s.modeCelsius ∧
      (connectWiFiLoop status essais s).ledC = s.ledC ∧
      (connectWiFiLoop status essais s).ledF = s.ledF ∧
      (connectWiFiLoop status essais s).published = s.published := by
  intro n
  induction n with
  | zero =>
    intro essais s h
    rw [connectWiFiLoop]
    have h20 : essais + 1 > 20 := by omega
    by_cases hs : status essais = true <;> simp [hs, h20]
  | succ n ih =>
    intro essais s h
    rw [connectWiFiLoop]
    by_cases hs : status essais = true
    · simp [hs]
    · by_cases h20 : essais + 1 > 20
      · simp [hs, h20]
      · have hrec := ih (essais + 1)
          { s with delays := s.delays ++ [500], serial := s.serial ++ [SerialMsg.dot] }
          (by omega)
        simpa [hs, h20] using hrec

theorem connectWiFiLoop_connected (status : Nat → Bool) (essais : Nat) (s : State)
    (h : status essais = true) :
    connectWiFiLoop status essais s =
      { s with serial := s.serial ++ [SerialMsg.wifiConnected] } := by
  rw [connectWiFiLoop]
  simp [h]

theorem connectWiFi_frame (status : Nat → Bool) (s : State) :
    (connectWiFi status s).modeCelsius = s.modeCelsius ∧
    (connectWiFi status s).ledC = s.ledC ∧
    (connectWiFi status s).ledF = s.ledF ∧
    (connectWiFi status s).published = s.published := by
  unfold connectWiFi
  exact connectWiFiLoop_frame status 21 0 _ rfl

/-! ## Rounding -/

theorem roundHalfEven_sub_abs (y : ℚ) : |(roundHalfEven y : ℚ) - y| ≤ 1 / 2 := by
  have h1 : (⌊y⌋ : ℚ) ≤ y := Int.floor_le y
  have h2 : y < ⌊y⌋ + 1 := Int.lt_floor_add_one y
  unfold roundHalfEven
  split_ifs with a b c <;> push_cast <;> rw [abs_le] <;> constructor <;> linarith

theorem roundHalfEven_intCast (n : ℤ) : roundHalfEven (n : ℚ) = n := by
  unfold roundHalfEven
  simp

theorem le_roundHalfEven {n : ℤ} {y : ℚ} (h : (n : ℚ) ≤ y) : n ≤ roundHalfEven y := by
  have hf : n ≤ ⌊y⌋ := Int.le_floor.2 h
  unfold roundHalfEven
  split_ifs <;> omega

theorem roundHalfEven_le {n : ℤ} {y : ℚ} (h : y ≤ (n : ℚ)) : roundHalfEven y ≤ n := by
  rcases eq_or_lt_of_le h with h | h
  · rw [h, roundHalfEven_intCast]
  · have hf : ⌊y⌋ < n := Int.floor_lt.2 h
    unfold roundHalfEven
    split_ifs <;> omega

theorem roundHalfEven_eq_of_near {n : ℤ} {y : ℚ} (h1 : (n : ℚ) - 1 / 2 < y)
    (h2 : y < (n : ℚ) + 1 / 2) : roundHalfEven y = n := by
  have e := roundHalfEven_sub_abs y
  have hf1 : (⌊y⌋ : ℚ) ≤ y := Int.floor_le y
  have hf2 : y < ⌊y⌋ + 1 := Int.lt_floor_add_one y
  rw [abs_le] at e
  have a1 : ((roundHalfEven y : ℤ) : ℚ) < n + 1 := by linarith
  have a2 : ((n : ℤ) : ℚ) < roundHalfEven y + 1 := by linarith
  have b1 : roundHalfEven y < n + 1 := by exact_mod_cast a1
  have b2 : n < roundHalfEven y + 1 := by exact_mod_cast a2
  omega

theorem log_two_eq {x : ℚ} {e : ℤ} (h1 : (2 : ℚ) ^ e ≤ x) (h2 : x < (2 : ℚ) ^ (e + 1)) :
    Int.log 2 x = e := by
  have hx : 0 < x := lt_of_lt_of_le (by positivity) h1
  have a : e ≤ Int.log 2 x := (Int.zpow_le_iff_le_log (by norm_num) hx).1 (by simpa using h1)
  have b : Int.log 2 x < e + 1 := (Int.lt_zpow_iff_log_lt (by norm_num) hx).1 (by simpa using h2)
  omega

theorem roundBinary_of_binade (p : ℕ) {x : ℚ} {e : ℤ} (h1 : (2 : ℚ) ^ e ≤ |x|)
    (h2 : |x| < (2 : ℚ) ^ (e + 1)) :
    roundBinary p x =
      roundHalfEven (x / 2 ^ (e - ((p : ℤ) - 1))) * 2 ^ (e - ((p : ℤ) - 1)) := by
  have hx : x ≠ 0 := by
    intro h
    rw [h, abs_zero] at h1
    have : (0 : ℚ) < 2 ^ e := by positivity
    linarith
  unfold roundBinary
  rw [if_neg hx, log_two_eq h1 h2]

theorem roundBinary_error (p : ℕ) (x : ℚ) : |roundBinary p x - x| ≤ |x| / 2 ^ p := by
  by_cases hx : x = 0
  · simp [roundBinary, hx]
  · have hpos : 0 < |x| := abs_pos.2 hx
    have hlog : (2 : ℚ) ^ Int.log 2 |x| ≤ |x| := by
      simpa using Int.zpow_log_le_self (b := 2) (by norm_num) hpos
    unfold roundBinary
    rw [if_neg hx]
    simp only []
    set u : ℚ := 2 ^ (Int.log 2 |x| - ((p : ℤ) - 1)) with hu
    have hupos : 0 < u := by positivity
    have hu2 : u = 2 ^ Int.log 2 |x| * 2 / 2 ^ p := by
      rw [hu, zpow_sub₀ (by norm_num), zpow_sub₀ (by norm_num), zpow_natCast]
      field_simp
    have hr := roundHalfEven_sub_abs (x / u)
    have key : (roundHalfEven (x / u) : ℚ) * u - x = ((roundHalfEven (x / u) : ℚ) - x / u) * u := by
      field_simp
    rw [key, abs_mul, abs_of_pos hupos]
    have h2p : (0 : ℚ) < 2 ^ p := by positivity
    calc |(roundHalfEven (x / u) : ℚ) - x / u| * u ≤ 1 / 2 * u :=
          mul_le_mul_of_nonneg_right hr hupos.le
      _ = 2 ^ Int.log 2 |x| / 2 ^ p := by rw [hu2]; field_simp
      _ ≤ |x| / 2 ^ p := div_le_div_of_nonneg_right hlog h2p.le

theorem roundBinary_of_pos_binade (p : ℕ) {x : ℚ} {e : ℤ} (h1 : (2 : ℚ) ^ e ≤ x)
    (h2 : x < (2 : ℚ) ^ (e + 1)) :
    roundBinary p x =
      roundHalfEven (x / 2 ^ (e - ((p : ℤ) - 1))) * 2 ^ (e - ((p : ℤ) - 1)) := by
  have hx : 0 < x := lt_of_lt_of_le (by positivity) h1
  apply roundBinary_of_binade <;> rw [abs_of_pos hx] <;> assumption

theorem roundBinary_eq_of_near (p : ℕ) {x : ℚ} {e n : ℤ} (h1 : (2 : ℚ) ^ e ≤ x)
    (h2 : x < (2 : ℚ) ^ (e + 1))
    (h3 : (n : ℚ) - 1 / 2 < x / 2 ^ (e - ((p : ℤ) - 1)))
    (h4 : x / 2 ^ (e - ((p : ℤ) - 1)) < (n : ℚ) + 1 / 2) :
    roundBinary p x = n * 2 ^ (e - ((p : ℤ) - 1)) := by
  rw [roundBinary_of_pos_binade p h1 h2, roundHalfEven_eq_of_near h3 h4]

theorem roundBinary_exact (p : ℕ) {x : ℚ} {e : ℤ} (n : ℤ) (h1 : (2 : ℚ) ^ e ≤ x)
    (h2 : x < (2 : ℚ) ^ (e + 1)) (h3 : x = n * 2 ^ (e - ((p : ℤ) - 1))) :
    roundBinary p x = x := by
  have hu : (0 : ℚ) < 2 ^ (e - ((p : ℤ) - 1)) := by positivity
  have hq : x / 2 ^ (e - ((p : ℤ) - 1)) = n := by
    rw [h3]
    field_simp
  rw [roundBinary_of_pos_binade p h1 h2, hq, roundHalfEven_intCast, ← h3]

theorem roundBinary_between (p : ℕ) {x : ℚ} {e : ℤ} (m1 m2 : ℤ) (h1 : (2 : ℚ) ^ e ≤ x)
    (h2 : x < (2 : ℚ) ^ (e + 1))
    (hlo : (m1 : ℚ) * 2 ^ (e - ((p : ℤ) - 1)) ≤ x)
    (hhi : x ≤ (m2 : ℚ) * 2 ^ (e - ((p : ℤ) - 1))) :
    (m1 : ℚ) * 2 ^ (e - ((p : ℤ) - 1)) ≤ roundBinary p x ∧
      roundBinary p x ≤ (m2 : ℚ) * 2 ^ (e - ((p : ℤ) - 1)) := by
  have hu : (0 : ℚ) < 2 ^ (e - ((p : ℤ) - 1)) := by positivity
  rw [roundBinary_of_pos_binade p h1 h2]
  have a : m1 ≤ roundHalfEven (x / 2 ^ (e - ((p : ℤ) - 1))) :=
    le_roundHalfEven ((le_div_iff₀ hu).2 hlo)
  have b : roundHalfEven (x / 2 ^ (e - ((p : ℤ) - 1))) ≤ m2 :=
    roundHalfEven_le ((div_le_iff₀ hu).2 hhi)
  constructor
  · exact mul_le_mul_of_nonneg_right (by exact_mod_cast a) hu.le
  · exact mul_le_mul_of_nonneg_right (by exact_mod_cast b) hu.le

theorem toDouble_349 : toDouble (349 / 10) = 4911738343600947 / 140737488355328 := by
  unfold toDouble
  rw [roundBinary_eq_of_near 53 (e := 5) (n := 4911738343600947) (by norm_num) (by norm_num)
    (by norm_num) (by norm_num)]
  norm_num

theorem toFloat_toDouble_349 : toFloat (toDouble (349 / 10)) = 4574413 / 131072 := by
  rw [toDouble_349]
  unfold toFloat
  rw [roundBinary_eq_of_near 24 (e := 5) (n := 9148826) (by norm_num) (by norm_num)
    (by norm_num) (by norm_num)]
  norm_num

theorem roundBinary_range_20_35 (p : ℕ) (hp : p = 24 ∨ p = 53) {x : ℚ} (h1 : 20 ≤ x)
    (h2 : x ≤ 35) : 20 ≤ roundBinary p x ∧ roundBinary p x ≤ 35 := by
  by_cases h : x < 32
  · rcases hp with rfl | rfl
    · have := roundBinary_between 24 (e := 4) (x := x) 10485760 16777216
        (by norm_num; linarith) (by norm_num; linarith) (by norm_num; linarith)
        (by norm_num; linarith)
      norm_num at this
      constructor <;> linarith
    · have := roundBinary_between 53 (e := 4) (x := x) 5629499534213120 9007199254740992
        (by norm_num; linarith) (by norm_num; linarith) (by norm_num; linarith)
        (by norm_num; linarith)
      norm_num at this
      constructor <;> linarith
  · rcases hp with rfl | rfl
    · have := roundBinary_between 24 (e := 5) (x := x) 8388608 9175040
        (by norm_num; linarith) (by norm_num; linarith) (by norm_num; linarith)
        (by norm_num; linarith)
      norm_num at this
      constructor <;> linarith
    · have := roundBinary_between 53 (e := 5) (x := x) 4503599627370496 4925812092436480
        (by norm_num; linarith) (by norm_num; linarith) (by norm_num; linarith)
        (by norm_num; linarith)
      norm_num at this
      constructor <;> linarith

theorem toFloat_int_40_80 (h : ℤ) (h1 : 40 ≤ h) (h2 : h ≤ 80) : toFloat (h : ℚ) = h := by
  have a1 : (40 : ℚ) ≤ (h : ℚ) := by exact_mod_cast h1
  have a2 : (h : ℚ) ≤ 80 := by exact_mod_cast h2
  unfold toFloat
  by_cases hc : (h : ℚ) < 64
  · exact roundBinary_exact 24 (e := 5) (h * 262144) (by norm_num; linarith)
      (by norm_num; linarith) (by push_cast; norm_num [mul_assoc])
  · exact roundBinary_exact 24 (e := 6) (h * 131072) (by norm_num; linarith)
      (by norm_num; linarith) (by push_cast; norm_num [mul_assoc])

theorem battery_value : battery = 8178893 / 2097152 := by
  unfold battery toDouble toFloat
  rw [roundBinary_eq_of_near 53 (e := 1) (n := 8782019273372467) (by norm_num) (by norm_num)
    (by norm_num) (by norm_num)]
  rw [roundBinary_eq_of_near 24 (e := 1) (n := 16357786) (by norm_num) (by norm_num)
    (by norm_num) (by norm_num)]
  norm_num

theorem toDisplayUnit_25 : toDisplayUnit false 25 = 77 := by
  unfold toDisplayUnit toDouble toFloat
  simp only [Bool.not_false, if_true]
  rw [roundBinary_exact 53 (e := 7) (x := 25 * 9) 7916483719987200 (by norm_num) (by norm_num)
    (by norm_num)]
  rw [roundBinary_exact 53 (e := 5) (x := 25 * 9 / 5) 6333186975989760 (by norm_num)
    (by norm_num) (by norm_num)]
  rw [roundBinary_exact 53 (e := 6) (x := 25 * 9 / 5 + 32) 5418393301680128 (by norm_num)
    (by norm_num) (by norm_num)]
  rw [roundBinary_exact 24 (e := 6) (x := 25 * 9 / 5 + 32) 10092544 (by norm_num)
    (by norm_num) (by norm_num)]
  norm_num

theorem toDisplayUnit_float_349 :
    toDisplayUnit false (4574413 / 131072) = 12428247 / 131072 := by
  have s1 : roundBinary 53 (4574413 / 131072 * 9) = 41169717 / 131072 := by
    rw [roundBinary_eq_of_near 53 (e := 8) (n := 5525705878142976) (by norm_num)
      (by norm_num) (by norm_num) (by norm_num)]
    norm_num
  have s2 : roundBinary 53 (41169717 / 131072 / 5) = 4420564702514381 / 70368744177664 := by
    rw [roundBinary_eq_of_near 53 (e := 5) (n := 8841129405028762) (by norm_num)
      (by norm_num) (by norm_num) (by norm_num)]
    norm_num
  have s3 : roundBinary 53 (4420564702514381 / 70368744177664 + 32) =
      6672364516199629 / 70368744177664 := by
    rw [roundBinary_eq_of_near 53 (e := 6) (n := 6672364516199629) (by norm_num)
      (by norm_num) (by norm_num) (by norm_num)]
    norm_num
  have s4 : roundBinary 24 (6672364516199629 / 70368744177664) = 12428247 / 131072 := by
    rw [roundBinary_eq_of_near 24 (e := 6) (n := 12428247) (by norm_num)
      (by norm_num) (by norm_num) (by norm_num)]
    norm_num
  unfold toDisplayUnit toDouble toFloat
  simp only [Bool.not_false, if_true]
  rw [s1, s2, s3, s4]

theorem toDisplayUnit_error (c : ℚ) :
    |toDisplayUnit false c - (c * 9 / 5 + 32)| ≤ (|c| * 9 / 5 + 32) / 2 ^ 23 := by
  unfold toDisplayUnit toDouble toFloat
  simp only [Bool.not_false, if_true]
  set x1 := roundBinary 53 (c * 9) with hx1
  set x2 := roundBinary 53 (x1 / 5) with hx2
  set x3 := roundBinary 53 (x2 + 32) with hx3
  set r := roundBinary 24 x3 with hr
  have e1 : |x1 - c * 9| ≤ |c * 9| / 2 ^ 53 := roundBinary_error 53 (c * 9)
  have e2 : |x2 - x1 / 5| ≤ |x1 / 5| / 2 ^ 53 := roundBinary_error 53 (x1 / 5)
  have e3 : |x3 - (x2 + 32)| ≤ |x2 + 32| / 2 ^ 53 := roundBinary_error 53 (x2 + 32)
  have e4 : |r - x3| ≤ |x3| / 2 ^ 24 := roundBinary_error 24 x3
  have a0 : |c * 9| = |c| * 9 := by rw [abs_mul]; norm_num
  have a1 : |x1| ≤ |c * 9| + |x1 - c * 9| := by
    have := abs_add (c * 9) (x1 - c * 9)
    simpa using this
  have a2 : |x1 / 5| = |x1| / 5 := by rw [abs_div]; norm_num
  have a3 : |x2| ≤ |x1 / 5| + |x2 - x1 / 5| := by
    have := abs_add (x1 / 5) (x2 - x1 / 5)
    simpa using this
  have a4 : |x2 + 32| ≤ |x2| + 32 := by
    have := abs_add x2 32
    simpa using this
  have a5 : |x3| ≤ |x2 + 32| + |x3 - (x2 + 32)| := by
    have := abs_add (x2 + 32) (x3 - (x2 + 32))
    simpa using this
  have split : r - (c * 9 / 5 + 32) =
      (r - x3) + (x3 - (x2 + 32)) + (x2 - x1 / 5) + (x1 - c * 9) / 5 := by ring
  have b1 : |r - (c * 9 / 5 + 32)| ≤
      |r - x3| + |x3 - (x2 + 32)| + |x2 - x1 / 5| + |x1 - c * 9| / 5 := by
    rw [split]
    have t1 := abs_add ((r - x3) + (x3 - (x2 + 32)) + (x2 - x1 / 5)) ((x1 - c * 9) / 5)
    have t2 := abs_add ((r - x3) + (x3 - (x2 + 32))) (x2 - x1 / 5)
    have t3 := abs_add (r - x3) (x3 - (x2 + 32))
    have t4 : |(x1 - c * 9) / 5| = |x1 - c * 9| / 5 := by rw [abs_div]; norm_num
    linarith
  have hc : 0 ≤ |c| := abs_nonneg c
  norm_num at e1 e2 e3 e4 ⊢
  rw [a0] at e1 a1
  rw [a2] at e2 a3
  linarith

/-! ## LED driver -/

/-- C5: in the state left by `setup()` (whatever the Wi-Fi does) the mode is
Celsius, `LED_C` is `HIGH` and `LED_F` is `LOW`; and after every call of
`updateLEDs`, for either mode, `LED_C` is `HIGH` exactly when the mode is Celsius,
`LED_F` is `HIGH` exactly when it is Fahrenheit, so exactly one of the two lines
is `HIGH`. -/
theorem leds_mutually_exclusive :
    (∀ (simulation : Bool) (wifiStatus : Nat → Bool),
      (setup simulation wifiStatus).modeCelsius = true ∧
      (setup simulation wifiStatus).ledC = HIGH ∧
      (setup simulation wifiStatus).ledF = LOW) ∧
    (∀ s : State,
      (updateLEDs s).modeCelsius = s.modeCelsius ∧
      ((updateLEDs s).ledC = HIGH ↔ (updateLEDs s).modeCelsius = true) ∧
      ((updateLEDs s).ledF = HIGH ↔ (updateLEDs s).modeCelsius = false) ∧
      (updateLEDs s).ledC ≠ (updateLEDs s).ledF) := by
  constructor
  · intro simulation wifiStatus
    unfold setup publishStatus
    dsimp only
    obtain ⟨h1, h2, h3, -⟩ := connectWiFi_frame wifiStatus
      { initialState with
        delays := [1000], serial := [SerialMsg.banner], ledC := HIGH, ledF := LOW }
    exact ⟨h1, h2, h3⟩
  · intro s
    cases hm : s.modeCelsius <;> simp [updateLEDs, hm, HIGH, LOW]

/-! ## Debounce filter -/

/-- C8: a call of `handleButton` whose two `millis()` readings are the same
`now` leaves `modeCelsius` unchanged whenever the level read is `HIGH`, or
differs from `lastButtonState`, or `now - lastDebounceTime` (the wrapping
`unsigned long` difference the code computes) is at most 50. -/
theorem handleButton_no_toggle (s : State) (reading : Bool) (now : Nat)
    (h : reading = HIGH ∨ reading ≠ s.lastButtonState ∨ usub now s.lastDebounceTime ≤ 50) :
    (handleButton reading now now s).modeCelsius = s.modeCelsius := by
  unfold handleButton
  dsimp only
  by_cases hd : (reading != s.lastButtonState) = true
  · simp [hd, usub_self, debounceDelay]
  · have heq : reading = s.lastButtonState := by simpa using hd
    rcases h with h | h | h
    · simp [hd, h, HIGH, LOW]
      split_ifs <;> rfl
    · exact absurd heq h
    · have : ¬ usub now s.lastDebounceTime > debounceDelay := by
        unfold debounceDelay
        omega
      simp [hd, this]

/-- Witness of C8 at the initial state: a `LOW` level read 30 ms after start-up. -/
theorem handleButton_no_toggle_witness :
    (LOW = HIGH ∨ LOW ≠ initialState.lastButtonState ∨
        usub 30 initialState.lastDebounceTime ≤ 50) ∧
      (handleButton LOW 30 30 initialState).modeCelsius = initialState.modeCelsius :=
  ⟨Or.inr (Or.inl (by decide)),
    handleButton_no_toggle initialState LOW 30 (Or.inr (Or.inl (by decide)))⟩

/-! ## Measurement and publish cycle -/

theorem loop_published_of_measure (simulation : Bool) (e : Env) (s : State) (c hum : ℚ)
    (hfire : intervalElapsed e.tCheck s.lastPublish = true)
    (hmeas : measure simulation e = some (c, hum)) :
    (loop simulation e s).published = s.published ++
      [Message.telemetry
        (toDisplayUnit (handleButton e.reading e.tDebounce e.tButton s).modeCelsius c)
        hum battery e.tStamp] := by
  rw [loop_eq, hfire, hmeas]
  simp only [if_true, updateLEDs, beforeCheck_published, beforeCheck_modeCelsius]

theorem measure_envSimulated : measure true envSimulated = some (4574413 / 131072, 79) := by
  have h1 : ((envSimulated.drawTemp : ℤ) : ℚ) / 10 = 349 / 10 := by
    norm_num [envSimulated]
  have h2 : toFloat ((envSimulated.drawHum : ℤ) : ℚ) = 79 := by
    rw [toFloat_int_40_80 _ (by decide) (by decide)]
    norm_num [envSimulated]
  unfold measure
  rw [if_pos rfl, h1, h2, toFloat_toDouble_349]

theorem battery_near : |battery - 39 / 10| < 1 / 10 ^ 7 := by
  rw [battery_value, abs_lt]
  constructor <;> norm_num

theorem toFloat_toDouble_near (x : ℚ) : |toFloat (toDouble x) - x| ≤ |x| / 2 ^ 23 := by
  unfold toFloat toDouble
  have e1 : |roundBinary 53 x - x| ≤ |x| / 2 ^ 53 := roundBinary_error 53 x
  have e2 : |roundBinary 24 (roundBinary 53 x) - roundBinary 53 x| ≤
      |roundBinary 53 x| / 2 ^ 24 := roundBinary_error 24 _
  have a1 : |roundBinary 53 x| ≤ |x| + |roundBinary 53 x - x| := by
    have := abs_add x (roundBinary 53 x - x)
    simpa using this
  have a2 : |roundBinary 24 (roundBinary 53 x) - x| ≤
      |roundBinary 24 (roundBinary 53 x) - roundBinary 53 x| + |roundBinary 53 x - x| := by
    have := abs_add (roundBinary 24 (roundBinary 53 x) - roundBinary 53 x)
      (roundBinary 53 x - x)
    simpa using this
  have hx : 0 ≤ |x| := abs_nonneg x
  norm_num at e1 e2 ⊢
  linarith

/-- C3 as the code has it: in a pass of `loop()` whose interval check passes and
whose measurement is the raw Celsius value `c` (with humidity `hum`), the
message handed to `client.publish` carries `c` itself when `modeCelsius` (as
left by `handleButton` in this pass) is true; when it is false it carries the
`float` that results from evaluating `c * 9.0 / 5.0 + 32.0` in `double`, which
differs from `c * 9 / 5 + 32` by at most `(|c| * 9 / 5 + 32) / 2 ^ 23`; with the
mode Fahrenheit and `c = 25` the temperature is exactly 77.  Rounding is that of
`roundBinary`, so the statement is about readings whose conversion stays inside
the exponent range of a `float`. -/
theorem published_temperature (simulation : Bool) (e : Env) (s : State) (c hum : ℚ)
    (hfire : intervalElapsed e.tCheck s.lastPublish = true)
    (hmeas : measure simulation e = some (c, hum)) :
    (loop simulation e s).published = s.published ++
        [Message.telemetry
          (toDisplayUnit (handleButton e.reading e.tDebounce e.tButton s).modeCelsius c)
          hum battery e.tStamp] ∧
      toDisplayUnit true c = c ∧
      toDisplayUnit false c = toFloat (toDouble (toDouble (toDouble (c * 9) / 5) + 32)) ∧
      |toDisplayUnit false c - (c * 9 / 5 + 32)| ≤ (|c| * 9 / 5 + 32) / 2 ^ 23 ∧
      toDisplayUnit false 25 = 77 :=
  ⟨loop_published_of_measure simulation e s c hum hfire hmeas, by simp [toDisplayUnit],
    by simp [toDisplayUnit], toDisplayUnit_error c, toDisplayUnit_25⟩

/-- Witness of C3 (amended): Fahrenheit mode, sensor read 25.0, published
temperature 77. -/
theorem published_temperature_witness :
    intervalElapsed envReal25.tCheck fahrenheitState.lastPublish = true ∧
    measure false envReal25 = some (25, 50) ∧
    (loop false envReal25 fahrenheitState).published =
      [Message.telemetry 77 50 battery 6000] := by
  refine ⟨by decide, rfl, ?_⟩
  have h := published_temperature false envReal25 fahrenheitState 25 50 (by decide) rfl
  have hm : (handleButton envReal25.reading envReal25.tDebounce envReal25.tButton
      fahrenheitState).modeCelsius = false := by decide
  rw [h.1, hm, h.2.2.2.2]
  rfl

/-- C3 as stated fails: a simulated station in Fahrenheit mode whose draw is 349
measures the `float` 34.9 (4574413/131072) and publishes 12428247/131072
(94.81999969...), which is not that reading times 9/5 plus 32
(62141237/655360). -/
theorem fahrenheit_value_is_rounded :
    measure true envSimulated = some (4574413 / 131072, 79) ∧
    (loop true envSimulated fahrenheitState).published =
      [Message.telemetry (12428247 / 131072) 79 battery 6000] ∧
    (12428247 / 131072 : ℚ) ≠ 4574413 / 131072 * 9 / 5 + 32 := by
  refine ⟨measure_envSimulated, ?_, by norm_num⟩
  have hm : (handleButton envSimulated.reading envSimulated.tDebounce envSimulated.tButton
      fahrenheitState).modeCelsius = false := by decide
  rw [loop_published_of_measure true envSimulated fahrenheitState _ _ (by decide)
    measure_envSimulated, hm, toDisplayUnit_float_349]
  rfl

/-- C4 as the code has it: in the simulated variant, for every draw `d` of
`random(200, 350)` and `h` of `random(40, 80)` (bounds taken inclusive, which
covers every value the generator returns), the measurement exists; its Celsius
temperature is `d / 10` computed in `double` and stored as a `float`, within
`(d / 10) / 2 ^ 23` of `d / 10`, and lies in [20, 35]; its humidity is `h` and
lies in [40, 80]; and the battery value is the constant `3.9` stored as a
`float`, 8178893/2097152, less than `10 ^ (-7)` away from 3.9. -/
theorem simulated_measurement_ranges (e : Env)
    (hd : 200 ≤ e.drawTemp ∧ e.drawTemp ≤ 350) (hh : 40 ≤ e.drawHum ∧ e.drawHum ≤ 80) :
    ∃ temp hum : ℚ, measure true e = some (temp, hum) ∧
      temp = toFloat (toDouble ((e.drawTemp : ℚ) / 10)) ∧
      |temp - (e.drawTemp : ℚ) / 10| ≤ (e.drawTemp : ℚ) / 10 / 2 ^ 23 ∧
      20 ≤ temp ∧ temp ≤ 35 ∧
      hum = (e.drawHum : ℚ) ∧ 40 ≤ hum ∧ hum ≤ 80 ∧
      battery = 8178893 / 2097152 ∧ |battery - 39 / 10| < 1 / 10 ^ 7 := by
  obtain ⟨hd1, hd2⟩ := hd
  obtain ⟨hh1, hh2⟩ := hh
  have a1 : (200 : ℚ) ≤ (e.drawTemp : ℚ) := by exact_mod_cast hd1
  have a2 : (e.drawTemp : ℚ) ≤ 350 := by exact_mod_cast hd2
  have b1 : (40 : ℚ) ≤ (e.drawHum : ℚ) := by exact_mod_cast hh1
  have b2 : (e.drawHum : ℚ) ≤ 80 := by exact_mod_cast hh2
  have x1 : (20 : ℚ) ≤ (e.drawTemp : ℚ) / 10 := by linarith
  have x2 : (e.drawTemp : ℚ) / 10 ≤ 35 := by linarith
  have r1 := roundBinary_range_20_35 53 (Or.inr rfl) x1 x2
  have r2 := roundBinary_range_20_35 24 (Or.inl rfl) r1.1 r1.2
  have hnear := toFloat_toDouble_near ((e.drawTemp : ℚ) / 10)
  rw [abs_of_nonneg (by linarith : (0 : ℚ) ≤ (e.drawTemp : ℚ) / 10)] at hnear
  refine ⟨toFloat (toDouble ((e.drawTemp : ℚ) / 10)), (e.drawHum : ℚ), ?_, rfl, hnear,
    r2.1, r2.2, rfl, b1, b2, battery_value, battery_near⟩
  unfold measure
  rw [if_pos rfl, toFloat_int_40_80 _ hh1 hh2]

/-- Witness of C4 (amended) at the draws 349 and 79. -/
theorem simulated_measurement_ranges_witness :
    (200 ≤ envSimulated.drawTemp ∧ envSimulated.drawTemp ≤ 350) ∧
    (40 ≤ envSimulated.drawHum ∧ envSimulated.drawHum ≤ 80) ∧
    ∃ temp hum : ℚ, measure true envSimulated = some (temp, hum) ∧
      temp = toFloat (toDouble ((envSimulated.drawTemp : ℚ) / 10)) ∧
      |temp - (envSimulated.drawTemp : ℚ) / 10| ≤ (envSimulated.drawTemp : ℚ) / 10 / 2 ^ 23 ∧
      20 ≤ temp ∧ temp ≤ 35 ∧
      hum = (envSimulated.drawHum : ℚ) ∧ 40 ≤ hum ∧ hum ≤ 80 ∧
      battery = 8178893 / 2097152 ∧ |battery - 39 / 10| < 1 / 10 ^ 7 :=
  ⟨by decide, by decide, simulated_measurement_ranges envSimulated (by decide) (by decide)⟩

/-- C4 as stated fails: the battery value is not exactly 3.9, and the Celsius
temperature of the draw 349 is the `float` 4574413/131072, not 349/10. -/
theorem battery_not_exactly_3_9 :
    battery ≠ 39 / 10 ∧
    measure true envSimulated = some (4574413 / 131072, 79) ∧
    (4574413 / 131072 : ℚ) ≠ (envSimulated.drawTemp : ℚ) / 10 := by
  refine ⟨?_, measure_envSimulated, by norm_num [envSimulated]⟩
  rw [battery_value]
  norm_num

/-- C6: in the real-sensor variant, in a pass of `loop()` whose interval check
passes, `lastPublish` becomes the clock reading of line 79 in every case; no
call of `client.publish` is made when the temperature read or the humidity
read is not-a-number; and exactly one telemetry message is published when
both reads are numbers. -/
theorem sensor_failure_consumes_slot (e : Env) (s : State)
    (hfire : intervalElapsed e.tCheck s.lastPublish = true) :
    (loop false e s).lastPublish = e.tStore ∧
    ((e.dhtTemp = none ∨ e.dhtHum = none) →
      (loop false e s).published = s.published ∧
      (loop false e s).serial.getLast? = some SerialMsg.dhtError) ∧
    (∀ temp hum : ℚ, e.dhtTemp = some temp → e.dhtHum = some hum →
      (loop false e s).published = s.published ++
        [Message.telemetry
          (toDisplayUnit (handleButton e.reading e.tDebounce e.tButton s).modeCelsius temp)
          hum battery e.tStamp]) := by
  rw [loop_eq, hfire]
  simp only [if_true]
  refine ⟨?_, ?_, ?_⟩
  · cases hm : measure false e with
    | none => rfl
    | some p => rfl
  · intro h
    have hm : measure false e = none := by
      unfold measure
      rcases h with h | h
      · simp [h]
      · cases ht : e.dhtTemp <;> simp [h]
    rw [hm]
    simp [beforeCheck_published]
  · intro temp hum ht hh
    have hm : measure false e = some (temp, hum) := by simp [measure, ht, hh]
    rw [hm]
    simp [updateLEDs, beforeCheck_published, beforeCheck_modeCelsius]

/-- Witness of C6: a failed temperature read at 6000 ms, straight after start-up. -/
theorem sensor_failure_consumes_slot_witness :
    intervalElapsed envSensorFault.tCheck initialState.lastPublish = true ∧
    (loop false envSensorFault initialState).lastPublish = 6001 ∧
    (loop false envSensorFault initialState).published = [] :=
  ⟨by decide,
    (sensor_failure_consumes_slot envSensorFault initialState (by decide)).1,
    ((sensor_failure_consumes_slot envSensorFault initialState (by decide)).2.1
      (Or.inl rfl)).1⟩

/-! ## The `return` of line 93 and the LED driver -/

theorem updateLEDs_idempotent (s : State) : updateLEDs (updateLEDs s) = updateLEDs s := by
  simp [updateLEDs]

/-- Every pass of `loop()` other than one stopped by the `return` of line 93
ends with the LED lines as `updateLEDs` sets them. -/
theorem loop_ends_with_updateLEDs (simulation : Bool) (e : Env) (s : State)
    (h : intervalElapsed e.tCheck s.lastPublish = false ∨ measure simulation e ≠ none) :
    updateLEDs (loop simulation e s) = loop simulation e s := by
  rw [loop_eq]
  by_cases hf : intervalElapsed e.tCheck s.lastPublish = true
  · have hm : measure simulation e ≠ none := by
      rcases h with h | h
      · rw [hf] at h
        exact absurd h (by decide)
      · exact h
    simp only [hf, if_true]
    cases hmeas : measure simulation e with
    | none => exact absurd hmeas hm
    | some p => exact updateLEDs_idempotent _
  · simp only [hf, if_false]
    exact updateLEDs_idempotent _

theorem setup_connected_at_once :
    setup false (fun _ => true) =
      { initialState with
        ledC := HIGH, ledF := LOW, delays := [1000]
        serial := [SerialMsg.banner, SerialMsg.wifiConnecting, SerialMsg.wifiConnected]
        published := [Message.status "online"] } := by
  unfold setup connectWiFi publishStatus
  dsimp only
  rw [connectWiFiLoop_connected _ 0 _ rfl]
  rfl

/-- C10 (evaluation of the code at the failing input): real-sensor variant,
Wi-Fi up at once, button pressed at 100 ms and still held at 6000 ms, when the
temperature read is not-a-number.  The second pass switches the mode to
Fahrenheit and returns at line 93 without reaching `updateLEDs`: it ends with
`LED_C` still `HIGH` and `LED_F` still `LOW`, which is not what `updateLEDs`
gives for the current mode. -/
theorem loop_sensor_fault_skips_updateLEDs :
    (runLoop false [envPress, envHeldFault] (setup false (fun _ => true))).modeCelsius = false ∧
    (runLoop false [envPress, envHeldFault] (setup false (fun _ => true))).ledC = HIGH ∧
    (runLoop false [envPress, envHeldFault] (setup false (fun _ => true))).ledF = LOW ∧
    updateLEDs (runLoop false [envPress, envHeldFault] (setup false (fun _ => true)))
      ≠ runLoop false [envPress, envHeldFault] (setup false (fun _ => true)) := by
  rw [setup_connected_at_once]
  decide

/-! ## One physical press -/

/-- C1 (evaluation of the code at the failing input): over the single press
`onePress`, started in the initial state, `modeCelsius` is changed by two of the
calls, and the press leaves the mode where it was. -/
theorem one_press_toggles_twice :
    countToggles onePress initialState = 2 ∧
    (pollButton onePress initialState).modeCelsius = initialState.modeCelsius := by
  decide

/-! ## A button held down -/

theorem handleButton_lastButtonState (r : Bool) (t1 t2 : Nat) (s : State) :
    (handleButton r t1 t2 s).lastButtonState = r := by
  unfold handleButton
  rfl

theorem handleButton_first_low (t : Nat) (s : State) (h : s.lastButtonState = HIGH) :
    (handleButton LOW t t s).lastDebounceTime = t ∧
      (handleButton LOW t t s).modeCelsius = s.modeCelsius := by
  unfold handleButton
  simp [h, HIGH, LOW, usub_self, debounceDelay]

theorem handleButton_still_low (t : Nat) (s : State) (h : s.lastButtonState = LOW) :
    (handleButton LOW t t s).lastDebounceTime = s.lastDebounceTime ∧
      (handleButton LOW t t s).modeCelsius =
        if usub t s.lastDebounceTime > debounceDelay then !s.modeCelsius else s.modeCelsius := by
  unfold handleButton
  simp only [h, LOW, bne_self_eq_false, Bool.false_eq_true, if_false, beq_self_eq_true, if_true]
  split_ifs <;> exact ⟨rfl, rfl⟩

theorem pollButton_append (a b : List (Bool × Nat)) (s : State) :
    pollButton (a ++ b) s = pollButton b (pollButton a s) := by
  induction a generalizing s with
  | nil => rfl
  | cons x a ih =>
    obtain ⟨r, t⟩ := x
    simp [pollButton, ih]

theorem countToggles_append (a b : List (Bool × Nat)) (s : State) :
    countToggles (a ++ b) s = countToggles a s + countToggles b (pollButton a s) := by
  induction a generalizing s with
  | nil => simp [countToggles, pollButton]
  | cons x a ih =>
    obtain ⟨r, t⟩ := x
    simp [countToggles, pollButton, ih, Nat.add_assoc]

theorem heldLow_succ (t0 step n : Nat) :
    heldLow t0 step (n + 1) = heldLow t0 step n ++ [(LOW, t0 + step * n)] := by
  simp [heldLow, List.range_succ]

theorem pollButton_heldLow (t0 step : Nat) (s : State) (h : s.lastButtonState = HIGH) (k : Nat) :
    (pollButton (heldLow t0 step (k + 1)) s).lastButtonState = LOW ∧
      (pollButton (heldLow t0 step (k + 1)) s).lastDebounceTime = t0 := by
  induction k with
  | zero =>
    have h1 := handleButton_first_low t0 s h
    simp [heldLow, pollButton, handleButton_lastButtonState, h1.1]
  | succ k ih =>
    rw [heldLow_succ, pollButton_append]
    simp only [pollButton]
    refine ⟨handleButton_lastButtonState _ _ _ _, ?_⟩
    rw [(handleButton_still_low _ _ ih.1).1]
    exact ih.2

theorem toggled_heldLow (t0 : Nat) (s : State) (h : s.lastButtonState = HIGH) (k : Nat)
    (hk : k ≤ 20) :
    toggled LOW (t0 + 10 * k) (pollButton (heldLow t0 10 k) s) = decide (50 < 10 * k) := by
  cases k with
  | zero =>
    simp [toggled, heldLow, pollButton, (handleButton_first_low t0 s h).2]
  | succ k =>
    obtain ⟨h1, h2⟩ := pollButton_heldLow t0 10 s h k
    have hu : usub (t0 + 10 * (k + 1)) t0 = 10 * (k + 1) := by
      unfold usub ULONG_SIZE
      omega
    unfold toggled
    rw [(handleButton_still_low _ _ h1).2, h2, hu]
    unfold debounceDelay
    by_cases hc : 50 < 10 * (k + 1)
    · simp [hc]
    · simp [hc]

theorem countToggles_heldLow (t0 : Nat) (s : State) (h : s.lastButtonState = HIGH) (k : Nat)
    (hk : k ≤ 21) :
    countToggles (heldLow t0 10 k) s = k - 6 := by
  induction k with
  | zero => rfl
  | succ k ih =>
    rw [heldLow_succ, countToggles_append, ih (by omega)]
    simp only [countToggles, toggled_heldLow t0 s h k (by omega)]
    by_cases hc : 50 < 10 * k
    · simp [hc]
      omega
    · simp [hc]
      omega

/-- C9: from any state whose `lastButtonState` is `HIGH` (the initial state is
one), with the button read `LOW` at the 21 polls `t0, t0 + 10, ..., t0 + 200`:
the calls at `t0 .. t0 + 50` leave `modeCelsius` unchanged, each call at
`t0 + 60 .. t0 + 200` changes it, and 15 calls change it in all.  In general a
call with level `LOW`, `lastButtonState` `LOW` and `now - lastDebounceTime > 50`
flips `modeCelsius`. -/
theorem held_button_retoggles (s : State) (t0 : Nat) (h : s.lastButtonState = HIGH) :
    (∀ k, k ≤ 5 →
      toggled LOW (t0 + 10 * k) (pollButton (heldLow t0 10 k) s) = false) ∧
    (∀ k, 6 ≤ k → k ≤ 20 →
      toggled LOW (t0 + 10 * k) (pollButton (heldLow t0 10 k) s) = true) ∧
    countToggles (heldLow t0 10 21) s = 15 ∧
    (∀ (s1 : State) (now : Nat), s1.lastButtonState = LOW →
      usub now s1.lastDebounceTime > 50 →
      (handleButton LOW now now s1).modeCelsius = !s1.modeCelsius) := by
  refine ⟨?_, ?_, ?_, ?_⟩
  · intro k hk
    rw [toggled_heldLow t0 s h k (by omega)]
    simp
    omega
  · intro k hk1 hk2
    rw [toggled_heldLow t0 s h k hk2]
    simp
    omega
  · exact countToggles_heldLow t0 s h 21 (le_refl _)
  · intro s1 now h1 h2
    rw [(handleButton_still_low now s1 h1).2]
    have : usub now s1.lastDebounceTime > debounceDelay := h2
    simp [this]

/-- Witness of C9: the initial state, button pressed from 1000 ms on. -/
theorem held_button_retoggles_witness :
    initialState.lastButtonState = HIGH ∧
    toggled LOW 1050 (pollButton (heldLow 1000 10 5) initialState) = false ∧
    toggled LOW 1060 (pollButton (heldLow 1000 10 6) initialState) = true ∧
    countToggles (heldLow 1000 10 21) initialState = 15 :=
  ⟨rfl,
    (held_button_retoggles initialState 1000 rfl).1 5 (by decide),
    (held_button_retoggles initialState 1000 rfl).2.1 6 (by decide) (by decide),
    (held_button_retoggles initialState 1000 rfl).2.2.1⟩

/-! ## Wi-Fi association -/

theorem connectWiFiLoop_waits (status : Nat → Bool) (essais : Nat) (s : State)
    (h : status essais = false) (h20 : essais < 20) :
    connectWiFiLoop status essais s =
      connectWiFiLoop status (essais + 1)
        { s with delays := s.delays ++ [500], serial := s.serial ++ [SerialMsg.dot] } := by
  rw [connectWiFiLoop]
  have : ¬ essais + 1 > 20 := by omega
  simp [h, this]

theorem connectWiFiLoop_gives_up (status : Nat → Bool) (essais : Nat) (s : State)
    (h : status essais = false) (h20 : 20 ≤ essais) :
    connectWiFiLoop status essais s =
      { s with
        delays := s.delays ++ [500]
        serial := s.serial ++ [SerialMsg.dot] ++ [SerialMsg.wifiFailed] } := by
  rw [connectWiFiLoop]
  have : essais + 1 > 20 := by omega
  simp [h, this]

/-- The loop of `connectWiFi` entered with `essais + n = 20`: it stops after
`m` delays when poll `essais + m` is the first connected one, and after `n + 1`
delays when none of the polls up to the 20th is. -/
theorem connectWiFiLoop_spec (status : Nat → Bool) :
    ∀ (n essais : Nat) (s : State), essais + n = 20 →
      (∀ m, m ≤ n → (∀ k, essais ≤ k → k < essais + m → status k = false) →
        status (essais + m) = true →
        (connectWiFiLoop status essais s).delays = s.delays ++ List.replicate m 500 ∧
        (connectWiFiLoop status essais s).serial =
          s.serial ++ List.replicate m SerialMsg.dot ++ [SerialMsg.wifiConnected]) ∧
      ((∀ k, essais ≤ k → k ≤ 20 → status k = false) →
        (connectWiFiLoop status essais s).delays = s.delays ++ List.replicate (n + 1) 500 ∧
        (connectWiFiLoop status essais s).serial =
          s.serial ++ List.replicate (n + 1) SerialMsg.dot ++ [SerialMsg.wifiFailed]) := by
  intro n
  induction n with
  | zero =>
    intro essais s he
    constructor
    · intro m hm _ hc
      obtain rfl : m = 0 := by omega
      rw [connectWiFiLoop_connected status essais s hc]
      simp
    · intro hnever
      rw [connectWiFiLoop_gives_up status essais s (hnever essais (le_refl _) (by omega))
        (by omega)]
      simp
  | succ n ih =>
    intro essais s he
    obtain ⟨ih1, ih2⟩ := ih (essais + 1)
      { s with delays := s.delays ++ [500], serial := s.serial ++ [SerialMsg.dot] } (by omega)
    constructor
    · intro m hm hbefore hc
      cases m with
      | zero =>
        rw [connectWiFiLoop_connected status essais s hc]
        simp
      | succ m =>
        have h0 : status essais = false := hbefore essais (le_refl _) (by omega)
        rw [connectWiFiLoop_waits status essais s h0 (by omega)]
        have hc1 : status (essais + 1 + m) = true := by
          have : essais + 1 + m = essais + (m + 1) := by omega
          rw [this]
          exact hc
        obtain ⟨r1, r2⟩ := ih1 m (by omega)
          (fun k hk1 hk2 => hbefore k (by omega) (by omega)) hc1
        rw [r1, r2]
        simp [List.replicate_succ]
    · intro hnever
      have h0 : status essais = false := hnever essais (le_refl _) (by omega)
      rw [connectWiFiLoop_waits status essais s h0 (by omega)]
      obtain ⟨r1, r2⟩ := ih2 (fun k hk1 hk2 => hnever k (by omega) hk2)
      rw [r1, r2]
      simp [List.replicate_succ]

/-- C7 as the code has it: `connectWiFi` is total; when poll `m` (at most the
21st, `m ≤ 20`) is the first that finds the station connected, it returns after
exactly `m` delays of 500 ms with the success line; and when none of the first
21 polls finds it connected (in particular when the status never becomes
connected) it gives up after exactly 21 delays of 500 ms, 10500 ms in all, with
the failure line and without a connection. -/
theorem connectWiFi_gives_up_after_21 (status : Nat → Bool) (s : State) :
    (∀ m, m ≤ 20 → (∀ k, k < m → status k = false) → status m = true →
      (connectWiFi status s).delays = s.delays ++ List.replicate m 500 ∧
      (connectWiFi status s).serial = s.serial ++ [SerialMsg.wifiConnecting] ++
        List.replicate m SerialMsg.dot ++ [SerialMsg.wifiConnected]) ∧
    ((∀ k, k ≤ 20 → status k = false) →
      (connectWiFi status s).delays = s.delays ++ List.replicate 21 500 ∧
      ((connectWiFi status s).delays.drop s.delays.length).sum = 10500 ∧
      (connectWiFi status s).serial = s.serial ++ [SerialMsg.wifiConnecting] ++
        List.replicate 21 SerialMsg.dot ++ [SerialMsg.wifiFailed]) := by
  obtain ⟨h1, h2⟩ := connectWiFiLoop_spec status 20 0
    { s with serial := s.serial ++ [SerialMsg.wifiConnecting] } rfl
  unfold connectWiFi
  constructor
  · intro m hm hbefore hc
    obtain ⟨r1, r2⟩ := h1 m hm (fun k _ hk => hbefore k (by omega)) (by simpa using hc)
    rw [r1, r2]
    simp
  · intro hnever
    obtain ⟨r1, r2⟩ := h2 (fun k _ hk => hnever k hk)
    rw [r1, r2]
    simp

/-- Witness of C7 (amended): a station that never associates, from the initial state. -/
theorem connectWiFi_gives_up_after_21_witness :
    (∀ k, k ≤ 20 → (fun _ : Nat => false) k = false) ∧
    (connectWiFi (fun _ => false) initialState).delays = List.replicate 21 500 ∧
    (connectWiFi (fun _ => false) initialState).serial = initialState.serial ++
      [SerialMsg.wifiConnecting] ++ List.replicate 21 SerialMsg.dot ++ [SerialMsg.wifiFailed] :=
  ⟨fun _ _ => rfl,
    ((connectWiFi_gives_up_after_21 (fun _ => false) initialState).2 (fun _ _ => rfl)).1,
    ((connectWiFi_gives_up_after_21 (fun _ => false) initialState).2 (fun _ _ => rfl)).2.2⟩

/-- C7 as stated fails: when `WiFi.status()` never reports a connection,
`connectWiFi` does not stop after 20 delays of 500 ms; it makes 21. -/
theorem connectWiFi_not_20_delays :
    (connectWiFi (fun _ => false) initialState).delays ≠ List.replicate 20 500 ∧
    (connectWiFi (fun _ => false) initialState).delays.length = 21 := by
  have h : (connectWiFi (fun _ => false) initialState).delays = List.replicate 21 500 := by
    obtain ⟨-, h2⟩ := connectWiFiLoop_spec (fun _ => false) 20 0
      { initialState with serial := initialState.serial ++ [SerialMsg.wifiConnecting] } rfl
    exact (h2 (fun _ _ _ => rfl)).1
  rw [h]
  decide

/-! ## Telemetry scheduler -/

theorem loop_lastPublish (simulation : Bool) (e : Env) (s : State) :
    (loop simulation e s).lastPublish =
      if intervalElapsed e.tCheck s.lastPublish then e.tStore else s.lastPublish := by
  rw [loop_eq]
  by_cases h : intervalElapsed e.tCheck s.lastPublish = true
  · simp only [h, if_true]
    cases measure simulation e <;> rfl
  · simp only [h, if_false]
    simp [updateLEDs, beforeCheck_lastPublish]

theorem loop_published_of_not_elapsed (simulation : Bool) (e : Env) (s : State)
    (h : intervalElapsed e.tCheck s.lastPublish = false) :
    (loop simulation e s).published = s.published := by
  rw [loop_eq, h]
  simp [updateLEDs, beforeCheck_published]

theorem intervalElapsed_iff {now last : Nat} (h1 : last ≤ now) (h2 : now < ULONG_SIZE) :
    intervalElapsed now last = true ↔ last + 5000 < now := by
  unfold intervalElapsed PUBLISH_INTERVAL
  rw [usub_of_le h1 h2, decide_eq_true_iff]
  omega

theorem clockMonotone_of_le {t t1 : Nat} {envs : List Env} (h : clockMonotone t envs)
    (hle : t1 ≤ t) : clockMonotone t1 envs := by
  cases envs with
  | nil => trivial
  | cons e es =>
    obtain ⟨h1, h2⟩ := h
    exact ⟨le_trans hle h1, h2⟩

/-- A pass that fires later in the run reads a clock more than 5000 ms above
any lower bound `L` of `lastPublish`. -/
theorem later_firing_exceeds (simulation : Bool) (L : Nat) (ej : Env) (post : List Env) :
    ∀ (mid : List Env) (s : State) (t : Nat), clockMonotone t (mid ++ ej :: post) →
      L ≤ s.lastPublish → s.lastPublish ≤ t →
      intervalElapsed ej.tCheck (runLoop simulation mid s).lastPublish = true →
      L + 5000 < ej.tCheck := by
  intro mid
  induction mid with
  | nil =>
    intro s t hc hL ht hj
    obtain ⟨c1, c2, c3, -⟩ := hc
    have := (intervalElapsed_iff (le_trans ht c1) (lt_of_le_of_lt c2 c3)).1 hj
    omega
  | cons e mid ih =>
    intro s t hc hL ht hj
    obtain ⟨c1, c2, c3, c4⟩ := hc
    refine ih (loop simulation e s) e.tStore c4 ?_ ?_ hj
    · rw [loop_lastPublish]
      split_ifs
      · omega
      · exact hL
    · rw [loop_lastPublish]
      split_ifs
      · exact le_refl _
      · omega

theorem firings_spaced (simulation : Bool) (ei ej : Env) (mid post : List Env) :
    ∀ (pre : List Env) (s : State),
      clockMonotone s.lastPublish (pre ++ ei :: (mid ++ ej :: post)) →
      intervalElapsed ei.tCheck (runLoop simulation pre s).lastPublish = true →
      intervalElapsed ej.tCheck (runLoop simulation (pre ++ ei :: mid) s).lastPublish = true →
      ei.tStore + 5000 < ej.tCheck := by
  intro pre
  induction pre with
  | nil =>
    intro s hc hi hj
    obtain ⟨-, -, -, c4⟩ := hc
    have hi1 : intervalElapsed ei.tCheck s.lastPublish = true := hi
    have hs : (loop simulation ei s).lastPublish = ei.tStore := by
      rw [loop_lastPublish, hi1]
      rfl
    exact later_firing_exceeds simulation ei.tStore ej post mid (loop simulation ei s)
      ei.tStore c4 (by omega) (by omega) hj
  | cons e pre ih =>
    intro s hc hi hj
    obtain ⟨c1, c2, c3, c4⟩ := hc
    refine ih (loop simulation e s) (clockMonotone_of_le c4 ?_) hi hj
    rw [loop_lastPublish]
    split_ifs
    · exact le_refl _
    · omega

/-- C2: in a run of `loop()` passes whose `millis()` readings never decrease
and never wrap, whenever two passes `ei` and, later, `ej` both pass the check of
line 78, the reading checked in `ej` exceeds the timestamp `ei` stored in
`lastPublish` by more than 5000; a pass that passes the check stores the reading
of line 79 in `lastPublish`; and a pass whose elapsed time is 5000 or less
publishes nothing and leaves `lastPublish` unchanged. -/
theorem scheduler_at_most_once_per_interval (simulation : Bool) (s : State)
    (pre mid post : List Env) (ei ej : Env)
    (hclock : clockMonotone s.lastPublish (pre ++ ei :: (mid ++ ej :: post))) :
    (intervalElapsed ei.tCheck (runLoop simulation pre s).lastPublish = true →
      intervalElapsed ej.tCheck (runLoop simulation (pre ++ ei :: mid) s).lastPublish = true →
      ei.tStore + 5000 < ej.tCheck) ∧
    (∀ (e : Env) (s1 : State), intervalElapsed e.tCheck s1.lastPublish = true →
      (loop simulation e s1).lastPublish = e.tStore) ∧
    (∀ (e : Env) (s1 : State), s1.lastPublish ≤ e.tCheck → e.tCheck < ULONG_SIZE →
      e.tCheck - s1.lastPublish ≤ 5000 →
      intervalElapsed e.tCheck s1.lastPublish = false ∧
      (loop simulation e s1).lastPublish = s1.lastPublish ∧
      (loop simulation e s1).published = s1.published) := by
  refine ⟨firings_spaced simulation ei ej mid post pre s hclock, ?_, ?_⟩
  · intro e s1 h
    rw [loop_lastPublish, h]
    rfl
  · intro e s1 h1 h2 h3
    have hn : intervalElapsed e.tCheck s1.lastPublish = false := by
      rw [Bool.eq_false_iff]
      intro hc
      have := (intervalElapsed_iff h1 h2).1 hc
      omega
    refine ⟨hn, ?_, loop_published_of_not_elapsed simulation e s1 hn⟩
    rw [loop_lastPublish, hn]
    rfl

/-- Witness of C2: passes at 3000, 6000, 8000 and 11001 ms from the initial
state; those at 6000 and 11001 fire. -/
theorem scheduler_at_most_once_per_interval_witness :
    clockMonotone initialState.lastPublish
      ([envAt 3000] ++ envAt 6000 :: ([envAt 8000] ++ envAt 11001 :: [])) ∧
    intervalElapsed (envAt 6000).tCheck (runLoop true [envAt 3000] initialState).lastPublish
      = true ∧
    intervalElapsed (envAt 11001).tCheck
      (runLoop true ([envAt 3000] ++ envAt 6000 :: [envAt 8000]) initialState).lastPublish
      = true ∧
    (envAt 6000).tStore + 5000 < (envAt 11001).tCheck :=
  ⟨by decide, by decide, by decide,
    (scheduler_at_most_once_per_interval true initialState [envAt 3000] [envAt 8000] []
      (envAt 6000) (envAt 11001) (by decide)).1 (by decide) (by decide)⟩

end MainESP32
